import Mathlib

/-!
Shallow embedding of the csviz core (`csviz.py`): the CSV directive-header
loader `CSVFileLoader` and the figure assembler `GraphMaker`.

Strings are modelled as lists of characters (`Str`), files as lists of
newline-stripped lines.  Python's `str.strip`, `str.split`, `in` and the
numeric constructors `int()` / `float()` are modelled by the executable
functions below.  A Python function that can return `None` is modelled with
`Option`; the loader as a whole returns `LoadRes`, where `.fail` models a
`return None` (the "no specification" signal) and `.exn` models an uncaught
exception escaping `CSVFileLoader.load` (caught only by the surrounding
`make_graph_wrapper`).
-/

namespace Csviz

/-- A Python string, modelled as its list of characters. -/
abbrev Str := List Char

/-- Python `str.strip()`: remove leading and trailing whitespace. -/
def strip (s : Str) : Str :=
  ((s.dropWhile Char.isWhitespace).reverse.dropWhile Char.isWhitespace).reverse

/-- Number of occurrences of a character in a string. -/
def countChar (d : Char) : Str → Nat
  | [] => 0
  | c :: rest => (if c = d then 1 else 0) + countChar d rest

/-- Python `str.split(d)` for a one-character separator `d`: no collapsing of
adjacent separators, and the empty string splits to `[""]`. -/
def splitOn (d : Char) : Str → List Str
  | [] => [[]]
  | c :: rest =>
    if c = d then [] :: splitOn d rest
    else
      match splitOn d rest with
      | [] => [[c]]
      | s :: ss => (c :: s) :: ss

/-- `class GraphTypes(Enum)` from csviz.py. -/
inductive GraphTypes where
  | Lines
  | Bar
  | Scatter
deriving DecidableEq, Repr

/-- A coerced CSV cell value: Python `int`, `float` or `str`.  Float values
are represented exactly as rationals (every decimal literal is a rational). -/
inductive PyVal where
  | int (i : Int)
  | float (q : Rat)
  | str (s : Str)
deriving DecidableEq, Repr

/-- Result of running loader code: `.ok` a value, `.fail` models `return None`
(the failure signal), `.exn` models an uncaught exception escaping the code. -/
inductive LoadRes (α : Type) where
  | ok (a : α)
  | fail
  | exn
deriving DecidableEq, Repr

/-- `CSVFileLoader.Y2_INDICATES = "%"`. -/
def Y2_INDICATES : Char := '%'

/-- `CSVFileLoader.PLACE_HOLDER = "_"`. -/
def PLACE_HOLDER : Str := ['_']

/-- `CSVFileLoader.HEADER_COMMENT = "#"`. -/
def HEADER_COMMENT : Char := '#'

/-- `CSVFileLoader.RANGESLIDER = "rangeslider"`. -/
def RANGESLIDER : Str := ("rangeslider".data)

/-- `CSVFileLoader.SUBCOMMAND_SEP = ":"`. -/
def SUBCOMMAND_SEP : Char := ':'

/-- `CSVFileLoader.GRAPH_TYPES_CONVERTER` dictionary; `none` means the key is
absent (indexing then raises `KeyError`). -/
def GRAPH_TYPES_CONVERTER (s : Str) : Option GraphTypes :=
  if s = ("lines".data) then some .Lines
  else if s = ("bar".data) then some .Bar
  else if s = ("scatter".data) then some .Scatter
  else none

/-- `CSVFileLoader.__csv_header_check`: every header line must be non-empty,
start with the comment marker, and not be just the marker after stripping. -/
def csv_header_check : List Str → Bool
  | [] => true
  | [] :: _ => false
  | (c :: cs) :: rest =>
    if c ≠ HEADER_COMMENT then false
    else if (strip (c :: cs)).length = 1 then false
    else csv_header_check rest

/-- Value of a non-empty all-digit string. -/
def digitsToNat (s : Str) : Nat :=
  s.foldl (fun acc c => acc * 10 + (c.toNat - ('0').toNat)) 0

/-- Parse a non-empty run of decimal digits. -/
def parseUnsignedInt (s : Str) : Option Nat :=
  if s ≠ [] ∧ s.all Char.isDigit then some (digitsToNat s) else none

/-- Model of Python `int(str)`: optional surrounding whitespace, an optional
sign, then decimal digits; anything else raises (returns `none`). -/
def pyParseInt (s : Str) : Option Int :=
  match strip s with
  | '-' :: rest => (parseUnsignedInt rest).map (fun n => -(n : Int))
  | '+' :: rest => (parseUnsignedInt rest).map (fun n => (n : Int))
  | t => (parseUnsignedInt t).map (fun n => (n : Int))

/-- Decimal mantissa accepted by Python `float`: `digits`, `digits.digits`,
`digits.` or `.digits`. -/
def parseDecimalMantissa (s : Str) : Option Rat :=
  match splitOn '.' s with
  | [intPart] =>
    if intPart ≠ [] ∧ intPart.all Char.isDigit then some ((digitsToNat intPart : Int) : Rat)
    else none
  | [intPart, fracPart] =>
    if (intPart ≠ [] ∨ fracPart ≠ []) ∧ intPart.all Char.isDigit ∧ fracPart.all Char.isDigit then
      some (((digitsToNat intPart : Int) : Rat) +
            ((digitsToNat fracPart : Int) : Rat) / ((10 : Rat) ^ fracPart.length))
    else none
  | _ => none

/-- Model of Python `float(str)` on plain decimal literals: optional
whitespace, optional sign, then a decimal mantissa.  Exponent, `inf` and
`nan` forms are omitted: in `__numstr_to_num` the float parse is only ever
reached after `int()` succeeded, so only all-digit strings reach it. -/
def pyParseFloat (s : Str) : Option Rat :=
  match strip s with
  | '-' :: rest => (parseDecimalMantissa rest).map (fun q => -q)
  | '+' :: rest => parseDecimalMantissa rest
  | t => parseDecimalMantissa t

/-- `CSVFileLoader.__numstr_to_num`.  The Python body runs `int(numstr)` and
then `float(numstr)` inside a single `try`; if either raises, the bare
`except` returns the original string.  Only if both succeed is the value an
int, or a float when the literal contains a decimal point. -/
def numstr_to_num (numstr : Str) : PyVal :=
  match pyParseInt numstr with
  | none => .str numstr
  | some int_val =>
    match pyParseFloat numstr with
    | none => .str numstr
    | some float_val => if '.' ∈ numstr then .float float_val else .int int_val

/-- The validation loop of `__parse_graph_types`, carrying the enumeration
index `i`; `multi` is `len(tmp) > 1` for the whole token list. -/
def graph_types_tokens_ok (multi : Bool) : Nat → List Str → Bool
  | _, [] => true
  | i, typ :: rest =>
    if multi ∧ i = 0 ∧ typ ≠ PLACE_HOLDER then false
    else if typ = PLACE_HOLDER then graph_types_tokens_ok multi (i + 1) rest
    else if (GRAPH_TYPES_CONVERTER typ).isSome then graph_types_tokens_ok multi (i + 1) rest
    else false

/-- `CSVFileLoader.__parse_graph_types`: strip the marker, lower-case, split,
strip tokens; with several tokens the first must be the placeholder, and all
non-placeholder tokens must be recognized chart types.  Returns the token
list itself when it has one token, else the tokens after the placeholder. -/
def parse_graph_types (delim : Char) (graph_types : Str) : Option (List Str) :=
  let tmp := (splitOn delim ((strip (graph_types.drop 1)).map Char.toLower)).map strip
  if graph_types_tokens_ok (tmp.length > 1) 0 tmp then
    some (if tmp.length = 1 then tmp else tmp.drop 1)
  else none

/-- The token loop of `__parse_column_title`: a token equal to the bare
secondary-axis marker fails; otherwise each token is paired with whether it
starts with the marker. -/
def build_column_title_row : List Str → Option (List (Bool × Str))
  | [] => some []
  | clean :: rest =>
    if clean = [Y2_INDICATES] then none
    else (build_column_title_row rest).map
      (fun r => (([Y2_INDICATES] : Str).isPrefixOf clean, clean) :: r)

/-- `CSVFileLoader.__parse_column_title`.  `datum_graph_types` is the value of
`self.datum.graph_types` at call time; in `load` the column titles are parsed
before that field is ever assigned, so `load` always passes the initial `[]`
here and the length cross-check below can never fire. -/
def parse_column_title (delim : Char) (datum_graph_types : List GraphTypes)
    (column_name : Str) : Option (List (Bool × Str)) :=
  match build_column_title_row ((splitOn delim (column_name.drop 1)).map strip) with
  | none => none
  | some row =>
    if datum_graph_types.length > 1 ∧ row.length ≠ datum_graph_types.length + 1 then none
    else if row.length < 2 then none
    else some (row.drop 1)

/-- `CSVFileLoader.__parse_xaxis_title`.  The Python body unpacks the split
into exactly two names, so a title containing two or more separators raises
`ValueError`; `none` models that uncaught exception. -/
def parse_xaxis_title (xaxis_title : Str) : Option (Bool × Str) :=
  if SUBCOMMAND_SEP ∈ xaxis_title then
    match (splitOn SUBCOMMAND_SEP xaxis_title).map strip with
    | [first_half, last_half] =>
      if last_half = RANGESLIDER then some (true, first_half)
      else some (false, xaxis_title)
    | _ => none
  else some (false, xaxis_title)

/-- The type-list reconciliation in `CSVFileLoader.load` (lines 233-239): a
list shorter than the column count is extended with copies of its first
element (`pre[0]`, raising `IndexError` on an empty list), a longer list
makes the load return `None`, an equal-length list is unchanged. -/
def reconcile (pre : List Str) (n : Nat) : LoadRes (List Str) :=
  if pre.length < n then
    match pre with
    | [] => .exn
    | h :: _ => .ok (pre ++ List.replicate (n - pre.length) h)
  else if pre.length > n then .fail
  else .ok pre

/-- The final conversion `[GRAPH_TYPES_CONVERTER[each] for each in ...]`;
an unrecognized token raises `KeyError`, modelled by `none`. -/
def convert_types : List Str → Option (List GraphTypes)
  | [] => some []
  | t :: rest =>
    match GRAPH_TYPES_CONVERTER t with
    | none => none
    | some g => (convert_types rest).map (fun gs => g :: gs)

/-- Everything `CSVFileLoader.load` extracts from the five header lines. -/
structure HeaderCtx where
  graph_title : Str
  xaxis_title : Str
  xaxis_slider : Bool
  yaxis_title : List Str
  column_title : List (Bool × Str)
  graph_types : List GraphTypes
deriving DecidableEq, Repr

/-- The header part of `CSVFileLoader.load` (lines 208-241), applied to the
five already-stripped header lines.  The match order follows the order of the
`None` checks in the source; all the parse calls are pure, so computing them
in check order is equivalent.  `parse_column_title` receives `[]` for
`self.datum.graph_types`, its value when line 224 runs. -/
def loadHeader5 (title xaxis yaxis gtypes cname : Str) (delim : Char) : LoadRes HeaderCtx :=
  if csv_header_check [title, xaxis, yaxis, gtypes, cname] then
    match parse_xaxis_title (strip (xaxis.drop 1)) with
    | none => .exn
    | some (xaxis_slider, xaxis_title) =>
      match parse_graph_types delim gtypes with
      | none => .fail
      | some pre =>
        match parse_column_title delim [] cname with
        | none => .fail
        | some ct =>
          match reconcile pre ct.length with
          | .exn => .exn
          | .fail => .fail
          | .ok pre2 =>
            match convert_types pre2 with
            | none => .exn
            | some gts =>
              .ok { graph_title := strip (title.drop 1),
                    xaxis_title := xaxis_title,
                    xaxis_slider := xaxis_slider,
                    yaxis_title := (splitOn delim (strip (yaxis.drop 1))).map strip,
                    column_title := ct,
                    graph_types := gts }
  else .fail

/-- Header processing on a whole file: the five `readline().strip()` calls
(a missing line reads as the empty string). -/
def loadHeader (lines : List Str) (delim : Char) : LoadRes HeaderCtx :=
  loadHeader5 (strip (lines.getD 0 [])) (strip (lines.getD 1 [])) (strip (lines.getD 2 []))
    (strip (lines.getD 3 [])) (strip (lines.getD 4 [])) delim

/-- The data-row loop of `CSVFileLoader.load` (lines 246-258): blank lines are
skipped, a row with the wrong field count makes the whole load return `None`,
and every field of an accepted row is coerced with `__numstr_to_num`. -/
def processRows (delim : Char) (ncols : Nat) : List Str → Option (List (List PyVal))
  | [] => some []
  | line :: rest =>
    if strip line = [] then processRows delim ncols rest
    else if (splitOn delim (strip line)).length ≠ ncols + 1 then none
    else (processRows delim ncols rest).map
      (fun rs => (splitOn delim (strip line)).map numstr_to_num :: rs)

/-- Helper for `zipStar`, recursing over the first row. -/
def zipStarAux : List PyVal → List (List PyVal) → List (List PyVal)
  | [], _ => []
  | x :: xs, rs =>
    if rs.any (fun l => l = []) then []
    else (x :: rs.map (fun l => l.headD (.str []))) :: zipStarAux xs (rs.map (fun l => l.drop 1))

/-- Python `list(map(list, zip(*rows)))`: the column-major transpose,
truncated at the shortest row. -/
def zipStar : List (List PyVal) → List (List PyVal)
  | [] => []
  | r :: rs => zipStarAux r rs

/-- `class GraphDatum`, restricted to the fields the loader assigns
(`font_size` and `bgcolor` are never touched by `CSVFileLoader`). -/
structure GraphDatum where
  graph_title : Str
  xaxis_title : Str
  xaxis_slider : Bool
  yaxis_title : List Str
  graph_types : List GraphTypes
  x_data : List PyVal
  column_title : List (Bool × Str)
  column_datum : List (List PyVal)
deriving DecidableEq, Repr

/-- `CSVFileLoader.load` on a file given as its list of lines: run the header
stage, then the row loop, then assemble the datum.  `x` collects the first
coerced field of each accepted row; `column_datum` is the transpose of the
rows with the x column dropped (`[1:]`). -/
def load (lines : List Str) (delim : Char) : LoadRes GraphDatum :=
  match loadHeader lines delim with
  | .exn => .exn
  | .fail => .fail
  | .ok ctx =>
    match processRows delim ctx.column_title.length (lines.drop 5) with
    | none => .fail
    | some rows =>
      .ok { graph_title := ctx.graph_title,
            xaxis_title := ctx.xaxis_title,
            xaxis_slider := ctx.xaxis_slider,
            yaxis_title := ctx.yaxis_title,
            graph_types := ctx.graph_types,
            x_data := rows.map (fun r => r.headD (.str [])),
            column_title := ctx.column_title,
            column_datum := (zipStar rows).drop 1 }

/-- One plotly trace as built by `GraphMaker.TraceMaker`: the chart type picks
the constructor (`go.Scatter` mode lines / `go.Bar` / `go.Scatter` mode
markers); all three record the series name, the shared x data, the column
data and the target y axis (`"y1"` or `"y2"`). -/
structure Trace where
  gtype : GraphTypes
  name : Str
  x : List PyVal
  y : List PyVal
  yaxis : Str
deriving DecidableEq, Repr

/-- The figure dictionary built by `GraphMaker.make_graph`: the traces plus
the layout fields that depend on the datum.  `yaxis2 = none` models the empty
`dict()` used when there is a single y-axis title. -/
structure Figure where
  data : List Trace
  title : Str
  xaxis_title : Str
  xaxis_rangeslider : Bool
  yaxis_title : Str
  yaxis2 : Option Str
deriving DecidableEq, Repr

/-- Python `zip` of three lists: truncates at the shortest. -/
def zip3 {α β γ : Type} : List α → List β → List γ → List (α × β × γ)
  | a :: as, b :: bs, c :: cs => (a, b, c) :: zip3 as bs cs
  | _, _, _ => []

/-- The trace loop of `GraphMaker.make_graph` (lines 290-304): a column
flagged for the secondary axis requires a second y-axis title (else the whole
figure build returns `None`), goes to axis `"y2"`, and has the marker
character stripped from its title. -/
def makeTraces (yaxis_title : List Str) (x_data : List PyVal) :
    List (GraphTypes × (Bool × Str) × List PyVal) → Option (List Trace)
  | [] => some []
  | (gt, (y2flag, ctitle), cdata) :: rest =>
    if y2flag then
      if yaxis_title.length = 1 then none
      else (makeTraces yaxis_title x_data rest).map
        (fun ts => { gtype := gt, name := ctitle.drop 1, x := x_data, y := cdata,
                     yaxis := ("y2".data) } :: ts)
    else (makeTraces yaxis_title x_data rest).map
      (fun ts => { gtype := gt, name := ctitle, x := x_data, y := cdata,
                   yaxis := ("y1".data) } :: ts)

/-- `GraphMaker.make_graph`: nothing is built when the type list is empty;
otherwise the traces come from zipping types, column titles and column data,
and the secondary axis dictionary is filled iff there are two y titles. -/
def make_graph (datum : GraphDatum) : Option Figure :=
  if datum.graph_types = [] then none
  else
    match makeTraces datum.yaxis_title datum.x_data
        (zip3 datum.graph_types datum.column_title datum.column_datum) with
    | none => none
    | some traces =>
      some { data := traces,
             title := datum.graph_title,
             xaxis_title := datum.xaxis_title,
             xaxis_rangeslider := datum.xaxis_slider,
             yaxis_title := datum.yaxis_title.headD [],
             yaxis2 := if datum.yaxis_title.length = 1 then none
                       else some (datum.yaxis_title.getD 1 []) }

/-- The whole pipeline of the spec (`loadSpec`): loader followed by figure
assembly; a `None` figure is the failure signal. -/
def loadSpec (lines : List Str) (delim : Char) : LoadRes Figure :=
  match load lines delim with
  | .exn => .exn
  | .fail => .fail
  | .ok d =>
    match make_graph d with
    | none => .fail
    | some f => .ok f

/-! ## General lemmas about the string model -/

theorem splitOn_ne_nil (d : Char) (s : Str) : splitOn d s ≠ [] := by
  induction s with
  | nil => simp [splitOn]
  | cons c rest ih =>
    simp only [splitOn]
    by_cases h : c = d
    · simp [h]
    · simp only [if_neg h]
      cases hs : splitOn d rest with
      | nil => simp
      | cons s ss => simp

theorem splitOn_length (d : Char) (s : Str) :
    (splitOn d s).length = countChar d s + 1 := by
  induction s with
  | nil => simp [splitOn, countChar]
  | cons c rest ih =>
    simp only [splitOn, countChar]
    by_cases h : c = d
    · simp [h, ih]
      omega
    · simp only [if_neg h]
      cases hs : splitOn d rest with
      | nil => exact absurd hs (splitOn_ne_nil d rest)
      | cons s ss =>
        rw [hs] at ih
        simpa [h, Nat.add_comm] using ih

theorem countChar_eq_zero (d : Char) (s : Str) :
    countChar d s = 0 ↔ d ∉ s := by
  induction s with
  | nil => simp [countChar]
  | cons c rest ih =>
    by_cases h : c = d
    · subst h
      simp [countChar]
    · simp [countChar, h, ih]
      exact fun _ hd => h hd.symm

theorem mem_dropWhile_of_not (p : Char → Bool) (s : Str) (c : Char)
    (hm : c ∈ s) (hp : p c = false) : c ∈ s.dropWhile p := by
  induction s with
  | nil => cases hm
  | cons a rest ih =>
    rw [List.dropWhile_cons]
    rcases List.mem_cons.mp hm with rfl | hm'
    · simp [hp]
    · by_cases ha : p a = true
      · simpa [ha] using ih hm'
      · simp [ha, hm']

theorem dropWhile_eq_nil_iff_all (p : Char → Bool) (s : Str) :
    s.dropWhile p = [] ↔ ∀ c ∈ s, p c = true := by
  induction s with
  | nil => simp
  | cons a rest ih =>
    rw [List.dropWhile_cons]
    by_cases ha : p a = true
    · rw [if_pos ha, ih]
      constructor
      · intro h c hc
        rcases List.mem_cons.mp hc with rfl | hc'
        · exact ha
        · exact h c hc'
      · intro h c hc
        exact h c (List.mem_cons_of_mem a hc)
    · rw [if_neg ha]
      constructor
      · intro h
        cases h
      · intro h
        exact absurd (h a (List.mem_cons_self a rest)) ha

theorem strip_ne_nil_of_mem (s : Str) (c : Char) (hm : c ∈ s)
    (hc : c.isWhitespace = false) : strip s ≠ [] := by
  intro hnil
  unfold strip at hnil
  rw [List.reverse_eq_nil_iff] at hnil
  have h1 : c ∈ s.dropWhile Char.isWhitespace := mem_dropWhile_of_not _ _ _ hm hc
  have h2 : c ∈ (s.dropWhile Char.isWhitespace).reverse := List.mem_reverse.mpr h1
  have := (dropWhile_eq_nil_iff_all _ _).mp hnil c h2
  rw [hc] at this
  cases this

/-! ## Lemmas about the individual loader stages -/

theorem parse_xaxis_title_eq_none (s : Str) (h : parse_xaxis_title s = none) :
    2 ≤ countChar SUBCOMMAND_SEP s := by
  unfold parse_xaxis_title at h
  by_cases hm : SUBCOMMAND_SEP ∈ s
  · rw [if_pos hm] at h
    have hlen := splitOn_length SUBCOMMAND_SEP s
    rcases hsp : splitOn SUBCOMMAND_SEP s with _ | ⟨a, _ | ⟨b, rest⟩⟩
    · exact absurd hsp (splitOn_ne_nil _ s)
    · rw [hsp] at hlen
      simp only [List.length_cons, List.length_nil] at hlen
      have h0 : countChar SUBCOMMAND_SEP s = 0 := by omega
      exact absurd hm ((countChar_eq_zero _ s).mp h0)
    · cases rest with
      | nil =>
        rw [hsp] at h
        simp only [List.map_cons, List.map_nil] at h
        by_cases hr : strip b = RANGESLIDER
        · rw [if_pos hr] at h
          cases h
        · rw [if_neg hr] at h
          cases h
      | cons c rest' =>
        rw [hsp] at hlen
        simp only [List.length_cons] at hlen
        omega
  · rw [if_neg hm] at h
    cases h

theorem graph_types_tokens_ok_mem (multi : Bool) (i : Nat) (l : List Str)
    (h : graph_types_tokens_ok multi i l = true) :
    ∀ t ∈ l, t = PLACE_HOLDER ∨ (GRAPH_TYPES_CONVERTER t).isSome := by
  induction l generalizing i with
  | nil =>
    intro t ht
    cases ht
  | cons a rest ih =>
    intro t ht
    unfold graph_types_tokens_ok at h
    by_cases h1 : multi ∧ i = 0 ∧ a ≠ PLACE_HOLDER
    · rw [if_pos h1] at h
      cases h
    · rw [if_neg h1] at h
      by_cases h2 : a = PLACE_HOLDER
      · rw [if_pos h2] at h
        rcases List.mem_cons.mp ht with rfl | ht'
        · exact .inl h2
        · exact ih (i + 1) h t ht'
      · rw [if_neg h2] at h
        by_cases h3 : (GRAPH_TYPES_CONVERTER a).isSome
        · rw [if_pos h3] at h
          rcases List.mem_cons.mp ht with rfl | ht'
          · exact .inr h3
          · exact ih (i + 1) h t ht'
        · rw [if_neg h3] at h
          cases h

theorem parse_graph_types_some (delim : Char) (g : Str) (pre : List Str)
    (h : parse_graph_types delim g = some pre) :
    pre ≠ [] ∧ ∀ t ∈ pre, t = PLACE_HOLDER ∨ (GRAPH_TYPES_CONVERTER t).isSome := by
  unfold parse_graph_types at h
  set tmp := (splitOn delim ((strip (g.drop 1)).map Char.toLower)).map strip with htmp
  have htne : tmp ≠ [] := by
    rw [htmp]
    simp only [ne_eq, List.map_eq_nil_iff]
    exact splitOn_ne_nil _ _
  by_cases hok : graph_types_tokens_ok (tmp.length > 1) 0 tmp = true
  · rw [if_pos hok] at h
    have hmem := graph_types_tokens_ok_mem _ 0 tmp hok
    by_cases h1 : tmp.length = 1
    · rw [if_pos h1] at h
      injection h with h
      subst h
      exact ⟨htne, hmem⟩
    · rw [if_neg h1] at h
      injection h with h
      subst h
      constructor
      · have hlp : 0 < tmp.length := List.length_pos.mpr htne
        have : 2 ≤ tmp.length := by omega
        intro hd
        have := List.length_drop 1 tmp
        rw [hd] at this
        simp at this
        omega
      · intro t ht
        exact hmem t (List.mem_of_mem_drop ht)
  · rw [if_neg hok] at h
    cases h

theorem reconcile_eq_exn (pre : List Str) (n : Nat) (h : reconcile pre n = .exn) :
    pre = [] := by
  unfold reconcile at h
  by_cases h1 : pre.length < n
  · rw [if_pos h1] at h
    cases pre with
    | nil => rfl
    | cons a t => cases h
  · rw [if_neg h1] at h
    by_cases h2 : pre.length > n
    · rw [if_pos h2] at h
      cases h
    · rw [if_neg h2] at h
      cases h

theorem reconcile_eq_ok (pre pre2 : List Str) (n : Nat) (h : reconcile pre n = .ok pre2) :
    pre2.length = n ∧ ∀ t ∈ pre2, t ∈ pre := by
  unfold reconcile at h
  by_cases h1 : pre.length < n
  · rw [if_pos h1] at h
    cases pre with
    | nil => cases h
    | cons a tl =>
      injection h with h
      subst h
      constructor
      · simp only [List.length_append, List.length_replicate, List.length_cons]
        simp only [List.length_cons] at h1
        omega
      · intro t ht
        rcases List.mem_append.mp ht with h' | h'
        · exact h'
        · rw [List.eq_of_mem_replicate h']
          exact List.mem_cons_self a tl
  · rw [if_neg h1] at h
    by_cases h2 : pre.length > n
    · rw [if_pos h2] at h
      cases h
    · rw [if_neg h2] at h
      injection h with h
      subst h
      exact ⟨by omega, fun t ht => ht⟩

theorem convert_types_eq_none (l : List Str) (h : convert_types l = none) :
    ∃ t ∈ l, GRAPH_TYPES_CONVERTER t = none := by
  induction l with
  | nil => cases h
  | cons a rest ih =>
    unfold convert_types at h
    cases hc : GRAPH_TYPES_CONVERTER a with
    | none => exact ⟨a, List.mem_cons_self a rest, hc⟩
    | some g =>
      rw [hc] at h
      cases hr : convert_types rest with
      | none =>
        obtain ⟨t, ht, h0⟩ := ih hr
        exact ⟨t, List.mem_cons_of_mem a ht, h0⟩
      | some gs =>
        rw [hr] at h
        cases h

theorem convert_types_eq_some (l : List Str) (g : List GraphTypes)
    (h : convert_types l = some g) : g.length = l.length := by
  induction l generalizing g with
  | nil =>
    injection h with h
    subst h
    rfl
  | cons a rest ih =>
    unfold convert_types at h
    cases hc : GRAPH_TYPES_CONVERTER a with
    | none =>
      rw [hc] at h
      cases h
    | some gt =>
      rw [hc] at h
      cases hr : convert_types rest with
      | none =>
        rw [hr] at h
        cases h
      | some gs =>
        rw [hr] at h
        injection h with h
        subst h
        simp [ih gs hr]

theorem parse_column_title_some (delim : Char) (gts : List GraphTypes) (cname : Str)
    (ct : List (Bool × Str)) (h : parse_column_title delim gts cname = some ct) :
    1 ≤ ct.length := by
  unfold parse_column_title at h
  cases hb : build_column_title_row ((splitOn delim (cname.drop 1)).map strip) with
  | none =>
    rw [hb] at h
    cases h
  | some row =>
    rw [hb] at h
    have h' : (if gts.length > 1 ∧ row.length ≠ gts.length + 1 then none
               else if row.length < 2 then none
               else some (row.drop 1)) = some ct := h
    by_cases h1 : gts.length > 1 ∧ row.length ≠ gts.length + 1
    · rw [if_pos h1] at h'
      cases h'
    · rw [if_neg h1] at h'
      by_cases h2 : row.length < 2
      · rw [if_pos h2] at h'
        cases h'
      · rw [if_neg h2] at h'
        injection h' with h'
        subst h'
        rw [List.length_drop]
        omega

theorem build_column_title_row_bare (toks : List Str)
    (h : ([Y2_INDICATES] : Str) ∈ toks) : build_column_title_row toks = none := by
  induction toks with
  | nil => cases h
  | cons a rest ih =>
    unfold build_column_title_row
    by_cases ha : a = [Y2_INDICATES]
    · rw [if_pos ha]
    · rw [if_neg ha]
      rcases List.mem_cons.mp h with h' | h'
      · exact absurd h'.symm ha
      · rw [ih h']
        rfl

theorem processRows_of_bad_row (delim : Char) (n : Nat) (ls : List Str)
    (h : ∃ l ∈ ls, strip l ≠ [] ∧ (splitOn delim (strip l)).length ≠ n + 1) :
    processRows delim n ls = none := by
  induction ls with
  | nil =>
    obtain ⟨l, hl, _⟩ := h
    cases hl
  | cons a rest ih =>
    obtain ⟨l, hl, hne, hlen⟩ := h
    unfold processRows
    by_cases hb : strip a = []
    · rw [if_pos hb]
      apply ih
      rcases List.mem_cons.mp hl with rfl | hl'
      · exact absurd hb hne
      · exact ⟨l, hl', hne, hlen⟩
    · rw [if_neg hb]
      by_cases hr : (splitOn delim (strip a)).length ≠ n + 1
      · rw [if_pos hr]
      · rw [if_neg hr]
        rcases List.mem_cons.mp hl with rfl | hl'
        · exact absurd hlen hr
        · rw [ih ⟨l, hl', hne, hlen⟩]
          rfl

theorem processRows_all_blank (delim : Char) (n : Nat) (ls : List Str)
    (h : ∀ l ∈ ls, strip l = []) : processRows delim n ls = some [] := by
  induction ls with
  | nil => rfl
  | cons a rest ih =>
    unfold processRows
    rw [if_pos (h a (List.mem_cons_self a rest))]
    exact ih (fun l hl => h l (List.mem_cons_of_mem a hl))

theorem makeTraces_of_unmatched_y2 (yt : List Str) (x : List PyVal)
    (l : List (GraphTypes × (Bool × Str) × List PyVal))
    (hyt : yt.length = 1) (hl : l.any (fun t => t.2.1.1) = true) :
    makeTraces yt x l = none := by
  induction l with
  | nil => cases hl
  | cons e rest ih =>
    obtain ⟨gt, ⟨f, ct⟩, cd⟩ := e
    unfold makeTraces
    by_cases hf : f = true
    · rw [if_pos hf, if_pos hyt]
    · rw [if_neg hf]
      simp only [List.any_cons] at hl
      rcases Bool.or_eq_true_iff.mp hl with h' | h'
      · exact absurd h' hf
      · rw [ih h']
        rfl

theorem zip3_nil_right {α β γ : Type} (as : List α) (bs : List β) :
    zip3 as bs ([] : List γ) = [] := by
  cases as <;> cases bs <;> rfl

/-! ## Inversion lemmas for the header stage -/

theorem loadHeader5_eq_exn (t x y g c : Str) (delim : Char)
    (h : loadHeader5 t x y g c delim = .exn) :
    parse_xaxis_title (strip (x.drop 1)) = none ∨
    ∃ pre, parse_graph_types delim g = some pre ∧ PLACE_HOLDER ∈ pre := by
  unfold loadHeader5 at h
  by_cases hc : csv_header_check [t, x, y, g, c] = true
  · rw [if_pos hc] at h
    cases hx : parse_xaxis_title (strip (x.drop 1)) with
    | none => exact .inl rfl
    | some p =>
      obtain ⟨sl, ti⟩ := p
      rw [hx] at h
      simp only [] at h
      cases hg : parse_graph_types delim g with
      | none =>
        rw [hg] at h
        cases h
      | some pre =>
        rw [hg] at h
        simp only [] at h
        cases hct : parse_column_title delim [] c with
        | none =>
          rw [hct] at h
          cases h
        | some ct =>
          rw [hct] at h
          simp only [] at h
          cases hr : reconcile pre ct.length with
          | exn =>
            have hnil := reconcile_eq_exn pre ct.length hr
            exact absurd hnil (parse_graph_types_some delim g pre hg).1
          | fail =>
            rw [hr] at h
            cases h
          | ok pre2 =>
            rw [hr] at h
            simp only [] at h
            cases hcv : convert_types pre2 with
            | none =>
              obtain ⟨tk, htk, htk0⟩ := convert_types_eq_none pre2 hcv
              have hsub := (reconcile_eq_ok pre pre2 ct.length hr).2 tk htk
              rcases (parse_graph_types_some delim g pre hg).2 tk hsub with rfl | hs
              · exact .inr ⟨pre, rfl, hsub⟩
              · rw [htk0] at hs
                cases hs
            | some gts =>
              rw [hcv] at h
              cases h
  · rw [if_neg hc] at h
    cases h

theorem loadHeader5_eq_ok (t x y g c : Str) (delim : Char) (ctx : HeaderCtx)
    (h : loadHeader5 t x y g c delim = .ok ctx) :
    1 ≤ ctx.column_title.length ∧ ctx.graph_types.length = ctx.column_title.length := by
  unfold loadHeader5 at h
  by_cases hc : csv_header_check [t, x, y, g, c] = true
  · rw [if_pos hc] at h
    cases hx : parse_xaxis_title (strip (x.drop 1)) with
    | none =>
      rw [hx] at h
      cases h
    | some p =>
      obtain ⟨sl, ti⟩ := p
      rw [hx] at h
      simp only [] at h
      cases hg : parse_graph_types delim g with
      | none =>
        rw [hg] at h
        cases h
      | some pre =>
        rw [hg] at h
        simp only [] at h
        cases hct : parse_column_title delim [] c with
        | none =>
          rw [hct] at h
          cases h
        | some ct =>
          rw [hct] at h
          simp only [] at h
          cases hr : reconcile pre ct.length with
          | exn =>
            rw [hr] at h
            cases h
          | fail =>
            rw [hr] at h
            cases h
          | ok pre2 =>
            rw [hr] at h
            simp only [] at h
            cases hcv : convert_types pre2 with
            | none =>
              rw [hcv] at h
              cases h
            | some gts =>
              rw [hcv] at h
              simp only [] at h
              injection h with h
              subst h
              refine ⟨parse_column_title_some delim [] c ct hct, ?_⟩
              simp only
              rw [convert_types_eq_some pre2 gts hcv,
                (reconcile_eq_ok pre pre2 ct.length hr).1]
  · rw [if_neg hc] at h
    cases h

/-- `load` returns the exception outcome iff its header stage does. -/
theorem load_eq_exn (lines : List Str) (delim : Char)
    (h : load lines delim = .exn) : loadHeader lines delim = .exn := by
  unfold load at h
  cases hH : loadHeader lines delim with
  | exn => rfl
  | fail =>
    rw [hH] at h
    cases h
  | ok ctx =>
    rw [hH] at h
    simp only [] at h
    cases hR : processRows delim ctx.column_title.length (lines.drop 5) with
    | none =>
      rw [hR] at h
      cases h
    | some rows =>
      rw [hR] at h
      cases h

/-! ## Claim theorems -/

/-- C1: the field coercion maps `"3"` to the integer 3, but — against the
spec's examples — keeps `"3.0"` and `"-2.5"` as strings, because `int()`
raises on them before `float()` is ever attempted; `"abc"` and `"1.2.3"` are
kept as strings as claimed.  This evaluates `__numstr_to_num` at the spec's
five example literals. -/
theorem C1_numstr_to_num_eval :
    numstr_to_num ("3".data) = .int 3 ∧
    numstr_to_num ("3.0".data) = .str ("3.0".data) ∧
    numstr_to_num ("-2.5".data) = .str ("-2.5".data) ∧
    numstr_to_num ("abc".data) = .str ("abc".data) ∧
    numstr_to_num ("1.2.3".data) = .str ("1.2.3".data) :=
  ⟨rfl, rfl, rfl, rfl, rfl⟩

/-- Input for C2: the chart-type line gives two explicit types but there are
three data columns. -/
def ex2 : List Str :=
  [("#T".data), ("#X".data), ("#Y".data), ("#_,bar,scatter".data), ("#x,a,b,c".data)]

/-- C2: the claimed cross-check (`len(column titles) == len(explicit type
tokens) + 1`, else fail) never fires: with explicit types `[bar, scatter]`
and three data columns the load succeeds and pads the list to
`[bar, scatter, bar]`, because `__parse_column_title` compares against
`self.datum.graph_types`, which is still the initial empty list when it
runs. -/
theorem C2_short_type_list_padded :
    load ex2 ',' =
      .ok { graph_title := ("T".data), xaxis_title := ("X".data),
            xaxis_slider := false, yaxis_title := [("Y".data)],
            graph_types := [.Bar, .Scatter, .Bar], x_data := [],
            column_title := [(false, ("a".data)), (false, ("b".data)), (false, ("c".data))],
            column_datum := [] } ∧
    load ex2 ',' ≠ .fail :=
  ⟨rfl, by decide⟩

/-- Input for C3: single-token chart-type line `#bar`, three data columns. -/
def ex3a : List Str :=
  [("#T".data), ("#X".data), ("#Y".data), ("#bar".data), ("#x,a,b,c".data)]

/-- Input for C3: placeholder-plus-one-token chart-type line `#_,bar`. -/
def ex3b : List Str :=
  [("#T".data), ("#X".data), ("#Y".data), ("#_,bar".data), ("#x,a,b,c".data)]

/-- C3: chart-type reconciliation.  `#bar` and `#_,bar` with three data
columns both yield the broadcast list `[bar, bar, bar]`; in general a type
list shorter than the column count is padded by repeating its first entry, a
longer list makes the load fail, and an equal-length list is unchanged. -/
theorem C3_type_reconciliation (pre : List Str) (n : Nat) :
    (load ex3a ',' =
      .ok { graph_title := ("T".data), xaxis_title := ("X".data),
            xaxis_slider := false, yaxis_title := [("Y".data)],
            graph_types := [.Bar, .Bar, .Bar], x_data := [],
            column_title := [(false, ("a".data)), (false, ("b".data)), (false, ("c".data))],
            column_datum := [] }) ∧
    (load ex3b ',' =
      .ok { graph_title := ("T".data), xaxis_title := ("X".data),
            xaxis_slider := false, yaxis_title := [("Y".data)],
            graph_types := [.Bar, .Bar, .Bar], x_data := [],
            column_title := [(false, ("a".data)), (false, ("b".data)), (false, ("c".data))],
            column_datum := [] }) ∧
    (pre ≠ [] → pre.length < n →
      reconcile pre n = .ok (pre ++ List.replicate (n - pre.length) (pre.headD []))) ∧
    (n < pre.length → reconcile pre n = .fail) ∧
    (pre.length = n → reconcile pre n = .ok pre) := by
  refine ⟨rfl, rfl, ?_, ?_, ?_⟩
  · intro hne hlt
    unfold reconcile
    rw [if_pos hlt]
    cases pre with
    | nil => exact absurd rfl hne
    | cons h0 tl => rfl
  · intro h
    unfold reconcile
    rw [if_neg (by omega), if_pos (by omega)]
  · intro h
    unfold reconcile
    rw [if_neg (by omega), if_neg (by omega)]

/-- Witness for C3 at concrete lists: padding a one-element list to length 3,
failing on a list longer than the column count, and keeping an equal-length
list. -/
theorem C3_type_reconciliation_witness :
    reconcile [("bar".data)] 3 = .ok [("bar".data), ("bar".data), ("bar".data)] ∧
    reconcile [("bar".data), ("bar".data)] 1 = .fail ∧
    reconcile [("bar".data)] 1 = .ok [("bar".data)] :=
  ⟨(C3_type_reconciliation [("bar".data)] 3).2.2.1 (by decide) (by decide),
   (C3_type_reconciliation [("bar".data), ("bar".data)] 1).2.2.2.1 (by decide),
   (C3_type_reconciliation [("bar".data)] 1).2.2.2.2 (by decide)⟩

/-- Counterexample to C4: a `%`-marked column with a single y-axis title but
zero data rows.  The per-series secondary-axis check in `make_graph` never
runs (there are no triples to iterate), so a chart with no traces is
produced — the load does not fail as the claim requires. -/
theorem C4_zero_rows_counterexample :
    loadSpec [("#T".data), ("#X".data), ("#ms".data), ("#lines".data), ("#t,%latency".data)] ','
      = .ok { data := [], title := ("T".data), xaxis_title := ("X".data),
              xaxis_rangeslider := false, yaxis_title := ("ms".data), yaxis2 := none } ∧
    loadSpec [("#T".data), ("#X".data), ("#ms".data), ("#lines".data), ("#t,%latency".data)] ','
      ≠ .fail :=
  ⟨rfl, by decide⟩

/-- Input for C4: column `%latency`, y-axis line `#ms,s`, one data row. -/
def ex4a : List Str :=
  [("#T".data), ("#X".data), ("#ms,s".data), ("#lines".data), ("#t,%latency".data), ("1,2".data)]

/-- Input for C4: column `%latency`, y-axis line `#ms` only, one data row. -/
def ex4b : List Str :=
  [("#T".data), ("#X".data), ("#ms".data), ("#lines".data), ("#t,%latency".data), ("1,2".data)]

/-- Input for C4: a column-title token that is exactly the bare marker. -/
def ex4c : List Str :=
  [("#T".data), ("#X".data), ("#ms,s".data), ("#lines".data), ("#t,%".data)]

/-- C4 (amended): a `%latency` column with y-axis line `#ms,s` produces one
series named `latency` on axis `y2` with secondary title `s`; with y-axis
line `#ms` and at least one data row the figure build fails; in general a
datum with a single y-axis title and a `%`-flagged column among the zipped
triples yields no figure; and a column-title token equal to the bare marker
makes the column parse, and hence the load, fail. -/
theorem C4_secondary_axis_routing (datum : GraphDatum) (gts : List GraphTypes)
    (cname : Str) (delim : Char) :
    (loadSpec ex4a ',' =
      .ok { data := [{ gtype := .Lines, name := ("latency".data), x := [.int 1],
                       y := [.int 2], yaxis := ("y2".data) }],
            title := ("T".data), xaxis_title := ("X".data), xaxis_rangeslider := false,
            yaxis_title := ("ms".data), yaxis2 := some ("s".data) }) ∧
    (loadSpec ex4b ',' = .fail) ∧
    (datum.yaxis_title.length = 1 →
      (zip3 datum.graph_types datum.column_title datum.column_datum).any
        (fun t => t.2.1.1) = true →
      make_graph datum = none) ∧
    (([Y2_INDICATES] : Str) ∈ (splitOn delim (cname.drop 1)).map strip →
      parse_column_title delim gts cname = none) ∧
    (load ex4c ',' = .fail) := by
  refine ⟨rfl, rfl, ?_, ?_, rfl⟩
  · intro h1 h2
    unfold make_graph
    by_cases hg : datum.graph_types = []
    · rw [if_pos hg]
    · rw [if_neg hg, makeTraces_of_unmatched_y2 datum.yaxis_title datum.x_data _ h1 h2]
  · intro hmem
    unfold parse_column_title
    rw [build_column_title_row_bare _ hmem]

/-- Concrete datum for the C4 witness: one `%`-flagged column, one y title. -/
def datum4 : GraphDatum :=
  { graph_title := [], xaxis_title := [], xaxis_slider := false,
    yaxis_title := [("ms".data)], graph_types := [.Lines], x_data := [],
    column_title := [(true, ("%l".data))], column_datum := [[.int 2]] }

/-- Witness for C4: the general conjuncts applied at a concrete datum and a
concrete column-title line. -/
theorem C4_secondary_axis_routing_witness :
    make_graph datum4 = none ∧ parse_column_title ',' [] ("#t,%".data) = none :=
  ⟨(C4_secondary_axis_routing datum4 [] ("#t,%".data) ',').2.2.1 (by decide) (by decide),
   (C4_secondary_axis_routing datum4 [] ("#t,%".data) ',').2.2.2.1 (by decide)⟩

/-- Counterexample to C5: an x-axis line with two separators does not fall
back to "whole string as title, flag false" — the split unpacking raises, so
the parse yields the exception outcome instead of a title. -/
theorem C5_multi_separator_counterexample :
    parse_xaxis_title ("a:b:c".data) = none ∧
    parse_xaxis_title ("a:b:c".data) ≠ some (false, ("a:b:c".data)) :=
  ⟨rfl, by decide⟩

/-- C5 (amended): for an x-axis line with no separator the whole string is
the title with the slider flag false; with exactly one separator and right
part `rangeslider` the title is the stripped left part with the flag true;
with exactly one separator and any other right part the whole string is the
title with the flag false; with two or more separators the parse raises
instead of producing a title. -/
theorem C5_xaxis_directive (s a b : Str) :
    (countChar SUBCOMMAND_SEP s = 0 → parse_xaxis_title s = some (false, s)) ∧
    (splitOn SUBCOMMAND_SEP s = [a, b] → strip b = RANGESLIDER →
      parse_xaxis_title s = some (true, strip a)) ∧
    (splitOn SUBCOMMAND_SEP s = [a, b] → strip b ≠ RANGESLIDER →
      parse_xaxis_title s = some (false, s)) ∧
    (2 ≤ countChar SUBCOMMAND_SEP s → parse_xaxis_title s = none) := by
  refine ⟨?_, ?_, ?_, ?_⟩
  · intro h
    unfold parse_xaxis_title
    rw [if_neg ((countChar_eq_zero _ s).mp h)]
  · intro hsp hr
    have hmem : SUBCOMMAND_SEP ∈ s := by
      by_contra hn
      have h0 : countChar SUBCOMMAND_SEP s = 0 := (countChar_eq_zero _ s).mpr hn
      have := splitOn_length SUBCOMMAND_SEP s
      rw [hsp, h0] at this
      simp at this
    unfold parse_xaxis_title
    rw [if_pos hmem, hsp]
    simp only [List.map_cons, List.map_nil]
    rw [if_pos hr]
  · intro hsp hr
    have hmem : SUBCOMMAND_SEP ∈ s := by
      by_contra hn
      have h0 : countChar SUBCOMMAND_SEP s = 0 := (countChar_eq_zero _ s).mpr hn
      have := splitOn_length SUBCOMMAND_SEP s
      rw [hsp, h0] at this
      simp at this
    unfold parse_xaxis_title
    rw [if_pos hmem, hsp]
    simp only [List.map_cons, List.map_nil]
    rw [if_neg hr]
  · intro h2
    have hmem : SUBCOMMAND_SEP ∈ s := by
      by_contra hn
      have h0 : countChar SUBCOMMAND_SEP s = 0 := (countChar_eq_zero _ s).mpr hn
      omega
    unfold parse_xaxis_title
    rw [if_pos hmem]
    have hlen := splitOn_length SUBCOMMAND_SEP s
    rcases hsp : splitOn SUBCOMMAND_SEP s with _ | ⟨p, _ | ⟨q, _ | ⟨r, rest⟩⟩⟩
    · exact absurd hsp (splitOn_ne_nil _ s)
    · rw [hsp] at hlen
      simp only [List.length_cons, List.length_nil] at hlen
      omega
    · rw [hsp] at hlen
      simp only [List.length_cons, List.length_nil] at hlen
      omega
    · rfl

/-- Witness for C5: the three shapes (no separator, `time:rangeslider`,
`time:foo`) and a two-separator line, each evaluated concretely. -/
theorem C5_xaxis_directive_witness :
    parse_xaxis_title ("time".data) = some (false, ("time".data)) ∧
    parse_xaxis_title ("time:rangeslider".data) = some (true, ("time".data)) ∧
    parse_xaxis_title ("time:foo".data) = some (false, ("time:foo".data)) ∧
    parse_xaxis_title ("ti:me:foo".data) = none :=
  ⟨(C5_xaxis_directive ("time".data) [] []).1 (by decide),
   (C5_xaxis_directive ("time:rangeslider".data) ("time".data) ("rangeslider".data)).2.1
     (by decide) (by decide),
   (C5_xaxis_directive ("time:foo".data) ("time".data) ("foo".data)).2.2.1
     (by decide) (by decide),
   (C5_xaxis_directive ("ti:me:foo".data) [] []).2.2.2 (by decide)⟩

theorem csv_header_check_iff (ls : List Str) :
    csv_header_check ls = true ↔
      ∀ l ∈ ls, l ≠ [] ∧ l.headD ' ' = HEADER_COMMENT ∧ 1 < (strip l).length := by
  induction ls with
  | nil => simp [csv_header_check]
  | cons a rest ih =>
    cases a with
    | nil => simp [csv_header_check]
    | cons ch cs =>
      unfold csv_header_check
      by_cases h1 : ch ≠ HEADER_COMMENT
      · rw [if_pos h1]
        simp only [Bool.false_eq_true, false_iff]
        intro hall
        exact absurd (hall (ch :: cs) (List.mem_cons_self _ _)).2.1 (by simpa using h1)
      · push_neg at h1
        rw [if_neg (by simp [h1])]
        by_cases h2 : (strip (ch :: cs)).length = 1
        · rw [if_pos h2]
          simp only [Bool.false_eq_true, false_iff]
          intro hall
          have := (hall (ch :: cs) (List.mem_cons_self _ _)).2.2
          omega
        · rw [if_neg h2, ih]
          constructor
          · intro hall l hl
            rcases List.mem_cons.mp hl with rfl | hl'
            · refine ⟨by simp, by simpa using h1, ?_⟩
              have hmem : HEADER_COMMENT ∈ ch :: cs := by
                rw [← h1]
                exact List.mem_cons_self _ _
              have hne := strip_ne_nil_of_mem (ch :: cs) HEADER_COMMENT hmem (by decide)
              have : 0 < (strip (ch :: cs)).length := List.length_pos.mpr hne
              omega
            · exact hall l hl'
          · intro hall l hl
            exact hall l (List.mem_cons_of_mem _ hl)

/-- C6: the header check passes iff every one of the five lines is non-empty,
starts with the comment marker, and has length greater than one after
stripping; and when the check on the five stripped lines fails, the load
returns the failure signal (no chart specification). -/
theorem C6_header_validation (l0 l1 l2 l3 l4 : Str) (lines : List Str) (delim : Char) :
    (csv_header_check [l0, l1, l2, l3, l4] = true ↔
      ∀ l ∈ [l0, l1, l2, l3, l4],
        l ≠ [] ∧ l.headD ' ' = HEADER_COMMENT ∧ 1 < (strip l).length) ∧
    (csv_header_check [strip (lines.getD 0 []), strip (lines.getD 1 []),
        strip (lines.getD 2 []), strip (lines.getD 3 []), strip (lines.getD 4 [])] = false →
      load lines delim = .fail) := by
  refine ⟨csv_header_check_iff _, ?_⟩
  intro hf
  unfold load loadHeader loadHeader5
  rw [if_neg (fun hc => by rw [hf] at hc; cases hc)]

/-- Witness for C6: a header of five well-formed lines passes the check, and
a file whose first line is empty loads to the failure signal. -/
theorem C6_header_validation_witness :
    csv_header_check [("#a".data), ("#b".data), ("#c".data), ("#d".data), ("#e".data)] = true ∧
    load [[], ("#x".data), ("#y".data), ("#t".data), ("#c".data)] ',' = .fail :=
  ⟨(C6_header_validation ("#a".data) ("#b".data) ("#c".data) ("#d".data) ("#e".data)
      [] ',').1.mpr (by decide),
   (C6_header_validation [] [] [] [] []
      [[], ("#x".data), ("#y".data), ("#t".data), ("#c".data)] ',').2 (by decide)⟩

/-- Input for C7: a valid header with one data column, then a row with three
fields instead of two. -/
def ex7 : List Str :=
  [("#T".data), ("#X".data), ("#Y".data), ("#lines".data), ("#x,a".data), ("1,2,3".data)]

/-- The header context that `loadHeader` extracts from `ex7`. -/
def ctx7 : HeaderCtx :=
  { graph_title := ("T".data), xaxis_title := ("X".data), xaxis_slider := false,
    yaxis_title := [("Y".data)], column_title := [(false, ("a".data))],
    graph_types := [.Lines] }

/-- C7: once the header stage has succeeded, any non-blank data line whose
field count differs from the number of data columns plus one makes the entire
load return the failure signal — no partial result. -/
theorem C7_row_shape_mismatch (lines : List Str) (delim : Char) (ctx : HeaderCtx)
    (h1 : loadHeader lines delim = .ok ctx)
    (h2 : ∃ l ∈ lines.drop 5, strip l ≠ [] ∧
        (splitOn delim (strip l)).length ≠ ctx.column_title.length + 1) :
    load lines delim = .fail := by
  unfold load
  rw [h1]
  simp only []
  rw [processRows_of_bad_row delim ctx.column_title.length (lines.drop 5) h2]

/-- Witness for C7: the file `ex7` (row `1,2,3` against one data column)
loads to the failure signal. -/
theorem C7_row_shape_mismatch_witness : load ex7 ',' = .fail :=
  C7_row_shape_mismatch ex7 ',' ctx7 (by rfl)
    ⟨("1,2,3".data), by decide, by decide, by decide⟩

/-- Input for C8: header-valid file whose x-axis line has two separators. -/
def ex8a : List Str :=
  [("#T".data), ("#a:b:c".data), ("#Y".data), ("#lines".data), ("#x,a".data)]

/-- Input for C8: header-valid file whose chart-type line is only the
placeholder. -/
def ex8b : List Str :=
  [("#T".data), ("#X".data), ("#Y".data), ("#_".data), ("#x,a".data)]

/-- Counterexample to C8: a file whose five header lines pass validation but
whose x-axis line contains two separators makes `load` raise (the unpacking
`ValueError` escapes the loader) instead of returning the failure signal. -/
theorem C8_exception_escapes_counterexample :
    csv_header_check [("#T".data), ("#a:b:c".data), ("#Y".data), ("#lines".data),
      ("#x,a".data)] = true ∧
    load [("#T".data), ("#a:b:c".data), ("#Y".data), ("#lines".data), ("#x,a".data)] ','
      = .exn ∧
    load [("#T".data), ("#a:b:c".data), ("#Y".data), ("#lines".data), ("#x,a".data)] ','
      ≠ .fail :=
  ⟨rfl, rfl, by decide⟩

/-- C8 (amended): both a two-separator x-axis line and a placeholder-only
chart-type line make `load` raise rather than return the failure signal; and
in general whenever `load` raises, either the x-axis directive contains two
or more separators or the parsed chart-type list still contains the
placeholder token — these are the only escaping exceptions. -/
theorem C8_fail_closed (lines : List Str) (delim : Char) :
    (load ex8a ',' = .exn) ∧
    (load ex8b ',' = .exn) ∧
    (load lines delim = .exn →
      2 ≤ countChar SUBCOMMAND_SEP (strip ((strip (lines.getD 1 [])).drop 1)) ∨
      ∃ pre, parse_graph_types delim (strip (lines.getD 3 [])) = some pre ∧
        PLACE_HOLDER ∈ pre) := by
  refine ⟨rfl, rfl, ?_⟩
  intro h
  have hH : loadHeader lines delim = .exn := load_eq_exn lines delim h
  unfold loadHeader at hH
  rcases loadHeader5_eq_exn (strip (lines.getD 0 [])) (strip (lines.getD 1 []))
      (strip (lines.getD 2 [])) (strip (lines.getD 3 [])) (strip (lines.getD 4 []))
      delim hH with hx | hpre
  · exact .inl (parse_xaxis_title_eq_none _ hx)
  · exact .inr hpre

/-- Witness for C8: the characterization applied to the two-separator file
`ex8a`, whose load raises. -/
theorem C8_fail_closed_witness :
    2 ≤ countChar SUBCOMMAND_SEP (strip ((strip (ex8a.getD 1 [])).drop 1)) ∨
    ∃ pre, parse_graph_types ',' (strip (ex8a.getD 3 [])) = some pre ∧
      PLACE_HOLDER ∈ pre :=
  (C8_fail_closed ex8a ',').2.2 ((C8_fail_closed ex8a ',').1)

/-- Input for C9: two data rows separated by a blank line. -/
def ex9 : List Str :=
  [("#T".data), ("#X".data), ("#Y".data), ("#lines".data), ("#x,a".data),
   ("0,5".data), [], ("1,6".data)]

/-- C9: a data line that is blank after stripping is skipped — neither an
error nor a terminator — and scanning continues, so rows after a blank line
are still decoded and included in the series. -/
theorem C9_blank_line_skipped (delim : Char) (ncols : Nat) (bl : Str) (rest : List Str) :
    (strip bl = [] → processRows delim ncols (bl :: rest) = processRows delim ncols rest) ∧
    load ex9 ',' =
      .ok { graph_title := ("T".data), xaxis_title := ("X".data), xaxis_slider := false,
            yaxis_title := [("Y".data)], graph_types := [.Lines],
            x_data := [.int 0, .int 1], column_title := [(false, ("a".data))],
            column_datum := [[.int 5, .int 6]] } := by
  refine ⟨?_, rfl⟩
  intro h
  simp only [processRows]
  rw [if_pos h]

/-- Witness for C9: a whitespace-only line is skipped in front of a data
row. -/
theorem C9_blank_line_skipped_witness :
    processRows ',' 1 [(" ".data), ("1,2".data)] = processRows ',' 1 [("1,2".data)] :=
  (C9_blank_line_skipped ',' 1 (" ".data) [("1,2".data)]).1 (by decide)

/-- Input for C10: a valid header followed by a whitespace-only line. -/
def ex10 : List Str :=
  [("#T".data), ("#X".data), ("#Y".data), ("#lines".data), ("#x,a".data), ("  ".data)]

/-- The header context that `loadHeader` extracts from `ex10`. -/
def ctx10 : HeaderCtx :=
  { graph_title := ("T".data), xaxis_title := ("X".data), xaxis_slider := false,
    yaxis_title := [("Y".data)], column_title := [(false, ("a".data))],
    graph_types := [.Lines] }

/-- C10: a file whose header parses but which has no (non-blank) data rows
loads successfully to a datum with empty x-sequence and an empty list of
column sequences — not one empty sequence per column — and the assembled
figure has no traces at all. -/
theorem C10_zero_data_rows (lines : List Str) (delim : Char) (ctx : HeaderCtx)
    (h1 : loadHeader lines delim = .ok ctx)
    (h2 : ∀ l ∈ lines.drop 5, strip l = []) :
    load lines delim =
      .ok { graph_title := ctx.graph_title, xaxis_title := ctx.xaxis_title,
            xaxis_slider := ctx.xaxis_slider, yaxis_title := ctx.yaxis_title,
            graph_types := ctx.graph_types, x_data := [],
            column_title := ctx.column_title, column_datum := [] } ∧
    make_graph { graph_title := ctx.graph_title, xaxis_title := ctx.xaxis_title,
                 xaxis_slider := ctx.xaxis_slider, yaxis_title := ctx.yaxis_title,
                 graph_types := ctx.graph_types, x_data := [],
                 column_title := ctx.column_title, column_datum := [] } =
      some { data := [], title := ctx.graph_title, xaxis_title := ctx.xaxis_title,
             xaxis_rangeslider := ctx.xaxis_slider,
             yaxis_title := ctx.yaxis_title.headD [],
             yaxis2 := if ctx.yaxis_title.length = 1 then none
                       else some (ctx.yaxis_title.getD 1 []) } := by
  have hrows := processRows_all_blank delim ctx.column_title.length (lines.drop 5) h2
  obtain ⟨hct, hlen⟩ := loadHeader5_eq_ok (strip (lines.getD 0 [])) (strip (lines.getD 1 []))
    (strip (lines.getD 2 [])) (strip (lines.getD 3 [])) (strip (lines.getD 4 [])) delim ctx
    (by unfold loadHeader at h1; exact h1)
  have hne : ctx.graph_types ≠ [] := by
    intro hnil
    rw [hnil] at hlen
    simp at hlen
    omega
  constructor
  · unfold load
    rw [h1]
    simp only []
    rw [hrows]
    rfl
  · unfold make_graph
    simp only []
    rw [if_neg hne, zip3_nil_right]
    rfl

/-- Witness for C10: the file `ex10` (header plus one whitespace line) loads
to a datum with empty x data and no column sequences, and its figure has no
traces. -/
theorem C10_zero_data_rows_witness :
    load ex10 ',' =
      .ok { graph_title := ("T".data), xaxis_title := ("X".data), xaxis_slider := false,
            yaxis_title := [("Y".data)], graph_types := [.Lines], x_data := [],
            column_title := [(false, ("a".data))], column_datum := [] } ∧
    make_graph { graph_title := ("T".data), xaxis_title := ("X".data), xaxis_slider := false,
                 yaxis_title := [("Y".data)], graph_types := [.Lines], x_data := [],
                 column_title := [(false, ("a".data))], column_datum := [] } =
      some { data := [], title := ("T".data), xaxis_title := ("X".data),
             xaxis_rangeslider := false, yaxis_title := ("Y".data), yaxis2 := none } :=
  C10_zero_data_rows ex10 ',' ctx10 (by rfl) (by decide)

end Csviz
